import Mathlib

/-!
Verification of the Smart-City Traffic Analyzer ETL pipeline (src/main.py)
against its natural-language specification.

Shallow embedding conventions:
* Timestamps are natural numbers of minutes since the generator's fixed
  start instant 2023-10-01 00:00 (a Sunday); an unparsable raw timestamp
  is modelled as `none`.
* A pandas NaN in a numeric column is modelled as `none : Option ℚ`;
  Python comparisons against NaN (which are all false) and `min(NaN, c)`
  (which returns NaN) are embedded accordingly.
* The pandas column operations `bfill` (fill each gap from the next valid
  observation) and `ffill` (propagate the last valid observation forward)
  are embedded positionally, per their documented semantics.
* All random draws made by numpy (`np.random.choice`, `np.random.randint`,
  `np.random.uniform`, `DataFrame.sample`) are threaded explicitly as
  functions from the row index, so every definition is deterministic in
  the draw streams.
-/

namespace Traffic

/-- Raw observation row as produced by the generator / read from the CSV.
The timestamp is `none` when the raw text cannot be parsed by
`pd.to_datetime`; a numeric field is `none` when it is NaN. -/
structure RawRow where
  timestamp : Option ℕ
  location_id : ℤ
  vehicle_count : Option ℚ
  average_speed : Option ℚ
deriving DecidableEq

/-- Transformed observation row, mirroring the columns of the dataframe
returned by `transform_traffic_data` in src/main.py lines 71-111. The
numeric fields stay `Option`-valued because the source's fill strategy
leaves NaN in place when an entire column is missing. -/
structure TransformedRow where
  timestamp : ℕ
  location_id : ℤ
  vehicle_count : Option ℚ
  average_speed : Option ℚ
  hour_of_day : ℕ
  day_of_week : String
  is_weekend : Bool
  traffic_category : String
deriving DecidableEq

/-- The engine aborts when `pd.to_datetime` cannot parse a timestamp
(src/main.py line 79); the spec's taxonomy calls this a ValidationError. -/
inductive EngineError where
  | validationError
deriving DecidableEq

/-- Hour component of a timestamp (pandas `dt.hour`), for minutes since
midnight of the epoch day. -/
def hourOf (t : ℕ) : ℕ := t / 60 % 24

/-- Weekday index of a timestamp (pandas `dt.dayofweek`, Monday = 0).
The epoch day 2023-10-01 is a Sunday, hence index 6 at day offset 0. -/
def dowOf (t : ℕ) : ℕ := (t / 1440 + 6) % 7

/-- Weekday name (pandas `dt.day_name()`). -/
def dayName : ℕ → String
  | 0 => "Monday"
  | 1 => "Tuesday"
  | 2 => "Wednesday"
  | 3 => "Thursday"
  | 4 => "Friday"
  | 5 => "Saturday"
  | _ => "Sunday"

/-- Positional embedding of pandas `Series.bfill` (src/main.py lines
83-84): entry `i` becomes the first non-missing value at position `i` or
later, and stays missing when no such value exists. -/
def bfill (xs : List (Option ℚ)) : List (Option ℚ) :=
  (List.range xs.length).map (fun i => (xs.drop i).findSome? id)

/-- Positional embedding of pandas `Series.ffill`: entry `i` becomes the
last non-missing value at position `i` or earlier, and stays missing when
no such value exists. -/
def ffill (xs : List (Option ℚ)) : List (Option ℚ) :=
  (List.range xs.length).map (fun i => ((xs.take (i + 1)).reverse).findSome? id)

/-- The source's imputation of one numeric column: `.bfill().ffill()`
(src/main.py lines 83-84). -/
def impute (xs : List (Option ℚ)) : List (Option ℚ) :=
  ffill (bfill xs)

/-- Embedding of `lambda x: min(x, 120)` (src/main.py line 88). Python's
`min(NaN, 120)` returns NaN because the comparison `120 < NaN` is false,
so a missing value stays missing. -/
def capSpeed : Option ℚ → Option ℚ
  | some v => some (min v 120)
  | none => none

/-- Python comparison `c < x` on a possibly-NaN float: false when NaN. -/
def optGT (x : Option ℚ) (c : ℚ) : Bool :=
  match x with
  | some v => decide (c < v)
  | none => false

/-- Python comparison `x < c` on a possibly-NaN float: false when NaN. -/
def optLT (x : Option ℚ) (c : ℚ) : Bool :=
  match x with
  | some v => decide (v < c)
  | none => false

/-- Embedding of `categorize_traffic` (src/main.py lines 98-106): first
match wins, congested before moderate before low. -/
def categorize_traffic (count speed : Option ℚ) : String :=
  if optGT count 300 && optLT speed 20 then "congested"
  else if optGT count 150 && optLT speed 40 then "moderate"
  else "low"

/-- Embedding of `pd.to_datetime` applied to the whole timestamp column
(src/main.py line 79): succeeds with the parsed column when every entry
parses, raises (returns `none`) as soon as any entry is unparsable. -/
def parse_timestamps : List (Option ℕ) → Option (List ℕ)
  | [] => some []
  | none :: _ => none
  | some t :: rest => (parse_timestamps rest).map (fun ts => t :: ts)

/-- Placeholder raw row used only for the never-taken default branch of
positional lookups inside `transform_traffic_data`. -/
def defaultRaw : RawRow :=
  { timestamp := none, location_id := 0, vehicle_count := none, average_speed := none }

/-- Row `i` of the transformed dataframe, given the raw batch and the
parsed timestamp column: the imputed vehicle count, the imputed and
capped speed, the calendar features of the timestamp, and the category
computed from the row's current (imputed, capped) numeric values. -/
def transformRow (df : List RawRow) (tss : List ℕ) (i : ℕ) : TransformedRow :=
  let vcs := impute (df.map (fun r => r.vehicle_count))
  let sps := (impute (df.map (fun r => r.average_speed))).map capSpeed
  let t := tss.getD i 0
  { timestamp := t
    location_id := (df.getD i defaultRaw).location_id
    vehicle_count := vcs.getD i none
    average_speed := sps.getD i none
    hour_of_day := hourOf t
    day_of_week := dayName (dowOf t)
    is_weekend := decide (5 ≤ dowOf t)
    traffic_category := categorize_traffic (vcs.getD i none) (sps.getD i none) }

/-- Embedding of `transform_traffic_data` (src/main.py lines 71-111):
parse the timestamp column (aborting on failure), impute both numeric
columns with `.bfill().ffill()`, cap `average_speed` at 120, derive the
calendar features, and classify each row from its (possibly still
missing) vehicle count and capped speed. Row order is positional. -/
def transform_traffic_data (df : List RawRow) : Except EngineError (List TransformedRow) :=
  match parse_timestamps (df.map (fun r => r.timestamp)) with
  | none => Except.error EngineError.validationError
  | some tss => Except.ok ((List.range df.length).map (transformRow df tss))

/-- State of the caller's raw batch object after `transform_traffic_data`
returns. In src/main.py every assignment in the function (lines 79-108)
writes a column of the argument dataframe `df` itself and the function
returns that same object, so after the call the caller's batch holds the
parsed timestamps and the imputed / capped numeric columns; here we keep
its raw-column view. -/
def raw_batch_after (df : List RawRow) : Except EngineError (List RawRow) :=
  (transform_traffic_data df).map (fun out =>
    out.map (fun r =>
      { timestamp := some r.timestamp
        location_id := r.location_id
        vehicle_count := r.vehicle_count
        average_speed := r.average_speed }))

/-- The four cardinal labels drawn by `np.random.choice` in
src/main.py line 136. -/
inductive Cardinal where
  | north
  | south
  | east
  | west
deriving DecidableEq

/-- String form of a cardinal label. -/
def cardinalName : Cardinal → String
  | .north => "North"
  | .south => "South"
  | .east => "East"
  | .west => "West"

/-- Row of the locations dimension table. -/
structure LocationRow where
  location_id : ℤ
  street_name : String
  area : String
deriving DecidableEq

/-- Embedding of the locations dataframe built in `load_data_to_mysql`
(src/main.py lines 133-137): ids 1..10, street names "Street i", and the
area string produced by the f-string `f'Area ...'` around the random
cardinal draw, threaded in as `choice`. -/
def load_locations (choice : ℕ → Cardinal) : List LocationRow :=
  (List.range 10).map (fun (i : ℕ) =>
    { location_id := (i : ℤ) + 1
      street_name := "Street " ++ toString (i + 1)
      area := "Area " ++ cardinalName (choice i) })

/-- The generator's fixed start instant `datetime(2023, 10, 1)`
(src/main.py line 17), as minutes since that very instant. -/
def start_date : ℕ := 0

/-- Random draw streams used by `generate_synthetic_traffic_data`,
indexed by row: `np.random.choice(range(1, 11))`, `np.random.randint(50,
200)`, `np.random.uniform(1.5, 2.5)`, `np.random.uniform(30, 80)`,
`np.random.uniform(10, 40)`, and the two `df.sample(frac=0.01)`
missing-value index selections, one per numeric field. -/
structure RandomDraws where
  locChoice : ℕ → ℤ
  baseCount : ℕ → ℕ
  peakFactor : ℕ → ℚ
  baseSpeed : ℕ → ℚ
  speedDrop : ℕ → ℚ
  missVC : ℕ → Bool
  missAS : ℕ → Bool

/-- Peak-hour test of src/main.py line 33: `7 <= h <= 9 or 16 <= h <= 18`. -/
def is_peak_hour (h : ℕ) : Bool :=
  (7 ≤ h && h ≤ 9) || (16 ≤ h && h ≤ 18)

/-- Vehicle count of row `i` before missing-value injection (src/main.py
lines 29-36): the base draw, multiplied by the peak factor and truncated
to an integer during peak hours. `int()` on a non-negative float is
`Nat.floor`. -/
def gen_vehicle_count (r : RandomDraws) (i : ℕ) : ℕ :=
  if is_peak_hour (hourOf (start_date + 15 * i)) then
    Nat.floor ((r.baseCount i : ℚ) * r.peakFactor i)
  else r.baseCount i

/-- Average speed of row `i` before missing-value injection (src/main.py
lines 39-47): the base draw, lowered by the congestion drop but floored
at 5 when the row's vehicle count exceeds 200. -/
def gen_avg_speed (r : RandomDraws) (i : ℕ) : ℚ :=
  if 200 < gen_vehicle_count r i then
    max 5 (r.baseSpeed i - r.speedDrop i)
  else r.baseSpeed i

/-- Embedding of `generate_synthetic_traffic_data` (src/main.py lines
9-66): row `i` carries the timestamp `start + 15 i` minutes, the sampled
location id, and the sampled numeric values, each replaced by missing
when that row index was selected by the corresponding
`df.sample(frac=0.01)` draw. -/
def generate_synthetic_traffic_data (num_rows : ℕ) (r : RandomDraws) : List RawRow :=
  (List.range num_rows).map (fun i =>
    { timestamp := some (start_date + 15 * i)
      location_id := r.locChoice i
      vehicle_count := if r.missVC i then none else some ((gen_vehicle_count r i : ℚ))
      average_speed := if r.missAS i then none else some (gen_avg_speed r i) })

deriving instance DecidableEq for Except

/-! Helper lemmas about the imputation scan. -/

theorem findSome?_id_cons_some (v : ℚ) (l : List (Option ℚ)) :
    (some v :: l).findSome? id = some v := rfl

theorem findSome?_id_cons_none (l : List (Option ℚ)) :
    ((none : Option ℚ) :: l).findSome? id = l.findSome? id := rfl

theorem length_bfill (xs : List (Option ℚ)) : (bfill xs).length = xs.length := by
  simp [bfill]

theorem length_impute (xs : List (Option ℚ)) : (impute xs).length = xs.length := by
  simp [impute, ffill, length_bfill]

theorem getElem?_impute (xs : List (Option ℚ)) (i : ℕ) (h : i < xs.length) :
    (impute xs)[i]? = some ((((bfill xs).take (i + 1)).reverse).findSome? id) := by
  have h' : i < (bfill xs).length := by simpa [length_bfill] using h
  simp [impute, ffill, List.getElem?_map, List.getElem?_range, h']

theorem take_bfill_eq (xs : List (Option ℚ)) (i : ℕ) (h : i ≤ xs.length) :
    (bfill xs).take i = (List.range i).map (fun j => (xs.drop j).findSome? id) := by
  unfold bfill
  rw [← List.map_take, List.take_range, Nat.min_eq_left h]

theorem take_reverse_succ (xs : List (Option ℚ)) (i : ℕ) (h : i < xs.length) :
    (xs.take (i + 1)).reverse = xs[i] :: (xs.take i).reverse := by
  rw [List.take_succ, List.getElem?_eq_getElem h]
  simp

theorem nextValid_of_some (xs : List (Option ℚ)) (i : ℕ) (h : i < xs.length)
    (v : ℚ) (hx : xs[i] = some v) :
    (xs.drop i).findSome? id = some v := by
  rw [List.drop_eq_getElem_cons h, hx, findSome?_id_cons_some]

theorem nextValid_of_none (xs : List (Option ℚ)) (i : ℕ) (h : i < xs.length)
    (hx : xs[i] = none) :
    (xs.drop i).findSome? id = (xs.drop (i + 1)).findSome? id := by
  rw [List.drop_eq_getElem_cons h, hx, findSome?_id_cons_none]

theorem scan_eq_prev (xs : List (Option ℚ)) :
    ∀ i, i ≤ xs.length → (xs.drop i).findSome? id = none →
      (((List.range i).map (fun j => (xs.drop j).findSome? id)).reverse).findSome? id
        = ((xs.take i).reverse).findSome? id := by
  intro i
  induction i with
  | zero => intro _ _; rfl
  | succ i ih =>
    intro hle hg
    have hi : i < xs.length := by omega
    rw [List.range_succ, List.map_append, List.reverse_append, take_reverse_succ xs i hi]
    simp only [List.map_cons, List.map_nil, List.reverse_cons, List.reverse_nil,
      List.nil_append, List.singleton_append]
    cases hx : xs[i] with
    | some v =>
      rw [nextValid_of_some xs i hi v hx]
      rw [findSome?_id_cons_some, findSome?_id_cons_some]
    | none =>
      have hgi : (xs.drop i).findSome? id = none := by
        rw [nextValid_of_none xs i hi hx, hg]
      rw [hgi, findSome?_id_cons_none, findSome?_id_cons_none]
      exact ih (by omega) hgi

theorem getElem?_impute_of_some (xs : List (Option ℚ)) (i : ℕ) (h : i < xs.length)
    (v : ℚ) (hv : xs[i] = some v) :
    (impute xs)[i]? = some (some v) := by
  rw [getElem?_impute xs i h, take_bfill_eq xs (i + 1) (by omega),
    List.range_succ, List.map_append, List.reverse_append]
  simp only [List.map_cons, List.map_nil, List.reverse_cons, List.reverse_nil,
    List.nil_append, List.singleton_append]
  rw [nextValid_of_some xs i h v hv, findSome?_id_cons_some]

theorem getElem?_impute_of_none (xs : List (Option ℚ)) (i : ℕ) (h : i < xs.length)
    (_hx : xs[i] = none) :
    (impute xs)[i]? = some (Option.orElse ((xs.drop i).findSome? id)
      (fun _ => ((xs.take i).reverse).findSome? id)) := by
  rw [getElem?_impute xs i h, take_bfill_eq xs (i + 1) (by omega),
    List.range_succ, List.map_append, List.reverse_append]
  simp only [List.map_cons, List.map_nil, List.reverse_cons, List.reverse_nil,
    List.nil_append, List.singleton_append]
  cases hg : (xs.drop i).findSome? id with
  | some v =>
    rw [findSome?_id_cons_some]
    rfl
  | none =>
    rw [findSome?_id_cons_none, scan_eq_prev xs i (by omega) hg]
    rfl

theorem impute_eq_self (xs : List (Option ℚ)) (hall : ∀ x ∈ xs, x ≠ none) :
    impute xs = xs := by
  apply List.ext_getElem?
  intro i
  by_cases h : i < xs.length
  · obtain ⟨v, hv⟩ : ∃ v, xs[i] = some v := by
      have hm := hall xs[i] (List.getElem_mem h)
      cases hx : xs[i] with
      | some v => exact ⟨v, rfl⟩
      | none => exact absurd hx hm
    rw [getElem?_impute_of_some xs i h v hv, List.getElem?_eq_getElem h, hv]
  · have h1 : (impute xs)[i]? = none := List.getElem?_eq_none (by rw [length_impute]; omega)
    have h2 : xs[i]? = none := List.getElem?_eq_none (by omega)
    rw [h1, h2]

/-! Helper lemmas about timestamp-column parsing. -/

theorem parse_timestamps_length (l : List (Option ℕ)) (ts : List ℕ)
    (h : parse_timestamps l = some ts) : ts.length = l.length := by
  induction l generalizing ts with
  | nil =>
    simp [parse_timestamps] at h
    simp [← h]
  | cons x rest ih =>
    cases x with
    | none => simp [parse_timestamps] at h
    | some t =>
      simp [parse_timestamps] at h
      obtain ⟨ts', hts', hcons⟩ := h
      simp [← hcons, ih ts' hts']

theorem parse_timestamps_getElem (l : List (Option ℕ)) (ts : List ℕ)
    (h : parse_timestamps l = some ts) (i : ℕ) (hi : i < l.length) :
    l[i]? = some (some (ts.getD i 0)) := by
  induction l generalizing ts i with
  | nil => simp at hi
  | cons x rest ih =>
    cases x with
    | none => simp [parse_timestamps] at h
    | some t =>
      simp [parse_timestamps] at h
      obtain ⟨ts', hts', hcons⟩ := h
      cases i with
      | zero => simp [← hcons]
      | succ i => simpa [← hcons] using ih ts' hts' i (by simpa using hi)

theorem parse_timestamps_of_all_some (l : List (Option ℕ)) (hall : ∀ x ∈ l, x ≠ none) :
    ∃ ts, parse_timestamps l = some ts := by
  induction l with
  | nil => exact ⟨[], rfl⟩
  | cons x rest ih =>
    obtain ⟨ts, hts⟩ := ih (fun y hy => hall y (List.mem_cons_of_mem x hy))
    cases x with
    | none => exact absurd rfl (hall none (List.mem_cons_self none rest))
    | some t => exact ⟨t :: ts, by simp [parse_timestamps, hts]⟩

theorem parse_timestamps_of_mem_none (l : List (Option ℕ)) (h : none ∈ l) :
    parse_timestamps l = none := by
  induction l with
  | nil => simp at h
  | cons x rest ih =>
    cases x with
    | none => rfl
    | some t =>
      have : none ∈ rest := by
        cases List.mem_cons.mp h with
        | inl hx => cases hx
        | inr hx => exact hx
      simp [parse_timestamps, ih this]

/-! Helper lemmas about the transform wrapper. -/

theorem transform_ok_elim (df : List RawRow) (out : List TransformedRow)
    (h : transform_traffic_data df = Except.ok out) :
    ∃ tss, parse_timestamps (df.map (fun r => r.timestamp)) = some tss ∧
      out = (List.range df.length).map (transformRow df tss) := by
  unfold transform_traffic_data at h
  split at h
  · cases h
  · injection h with h
    exact ⟨_, by assumption, h.symm⟩

theorem transform_ok_intro (df : List RawRow) (tss : List ℕ)
    (hp : parse_timestamps (df.map (fun r => r.timestamp)) = some tss) :
    transform_traffic_data df
      = Except.ok ((List.range df.length).map (transformRow df tss)) := by
  unfold transform_traffic_data
  rw [hp]

theorem transform_error_intro (df : List RawRow)
    (hp : parse_timestamps (df.map (fun r => r.timestamp)) = none) :
    transform_traffic_data df = Except.error EngineError.validationError := by
  unfold transform_traffic_data
  rw [hp]

theorem getElem?_range_map {α : Type} (f : ℕ → α) (n i : ℕ) (h : i < n) :
    ((List.range n).map f)[i]? = some (f i) := by
  simp [List.getElem?_map, List.getElem?_range, h]

theorem transformRow_vehicle_count (df : List RawRow) (tss : List ℕ) (i : ℕ) :
    (transformRow df tss i).vehicle_count
      = ((impute (df.map (fun r => r.vehicle_count)))[i]?).getD none := by
  rw [← List.getD_eq_getElem?_getD]
  rfl

theorem transformRow_average_speed (df : List RawRow) (tss : List ℕ) (i : ℕ) :
    (transformRow df tss i).average_speed
      = (((impute (df.map (fun r => r.average_speed))).map capSpeed)[i]?).getD none := by
  rw [← List.getD_eq_getElem?_getD]
  rfl

theorem transformRow_location_id (df : List RawRow) (tss : List ℕ) (i : ℕ) :
    (transformRow df tss i).location_id = ((df[i]?).getD defaultRaw).location_id := by
  rw [← List.getD_eq_getElem?_getD]
  rfl

theorem transformRow_timestamp (df : List RawRow) (tss : List ℕ) (i : ℕ) :
    (transformRow df tss i).timestamp = (tss[i]?).getD 0 := by
  rw [← List.getD_eq_getElem?_getD]
  rfl

theorem capSpeed_eq_map_min (x : Option ℚ) : capSpeed x = x.map (fun v => min v 120) := by
  cases x <;> rfl

theorem capSpeed_le (x : Option ℚ) (v : ℚ) (h : capSpeed x = some v) : v ≤ 120 := by
  cases x with
  | none => cases h
  | some w =>
    have hw : min w 120 = v := by injection h
    rw [← hw]
    exact min_le_right w 120

theorem gen_vehicle_count_ge (r : RandomDraws) (i : ℕ)
    (hbase : 50 ≤ r.baseCount i) (hfac : (3 : ℚ) / 2 ≤ r.peakFactor i) :
    50 ≤ gen_vehicle_count r i := by
  unfold gen_vehicle_count
  split
  · have hb : (50 : ℚ) ≤ (r.baseCount i : ℚ) := by exact_mod_cast hbase
    have hf1 : (1 : ℚ) ≤ r.peakFactor i := le_trans (by norm_num) hfac
    have h1 : (50 : ℚ) ≤ (r.baseCount i : ℚ) * r.peakFactor i := by
      calc (50 : ℚ) ≤ (r.baseCount i : ℚ) := hb
        _ = (r.baseCount i : ℚ) * 1 := by ring
        _ ≤ (r.baseCount i : ℚ) * r.peakFactor i :=
            mul_le_mul_of_nonneg_left hf1 (by positivity)
    exact Nat.le_floor h1
  · exact hbase

/-! Claim theorems. -/

/-- C1: the Engine assigns `traffic_category` as a pure function of the
row's (vehicle_count, average_speed) pair alone — namely
`categorize_traffic`, which tests congested before moderate before low —
and on the concrete pairs: (350, 15) is congested, (200, 30) is
moderate, (100, 50) is low, (151, 39) is moderate, and (300, 15) is
moderate because 300 is not strictly greater than 300, so the congested
rule fails and the moderate rule matches. -/
theorem categorize_pure_and_priority :
    (∀ (df : List RawRow) (out : List TransformedRow),
        transform_traffic_data df = Except.ok out →
        ∀ r ∈ out,
          r.traffic_category = categorize_traffic r.vehicle_count r.average_speed) ∧
    categorize_traffic (some 350) (some 15) = "congested" ∧
    categorize_traffic (some 200) (some 30) = "moderate" ∧
    categorize_traffic (some 100) (some 50) = "low" ∧
    categorize_traffic (some 151) (some 39) = "moderate" ∧
    categorize_traffic (some 300) (some 15) = "moderate" := by
  refine ⟨?_, by decide, by decide, by decide, by decide, by decide⟩
  intro df out h r hr
  obtain ⟨tss, hp, rfl⟩ := transform_ok_elim df out h
  obtain ⟨i, hi, rfl⟩ := List.mem_map.mp hr
  rfl

/-- Witness for C1 at a concrete one-row batch. -/
theorem categorize_pure_and_priority_witness :
    (⟨0, 1, some 100, some 50, 0, "Sunday", true, "low"⟩ : TransformedRow).traffic_category
      = categorize_traffic (some 100) (some 50) :=
  categorize_pure_and_priority.1 [⟨some 0, 1, some 100, some 50⟩]
    [⟨0, 1, some 100, some 50, 0, "Sunday", true, "low"⟩] (by decide)
    ⟨0, 1, some 100, some 50, 0, "Sunday", true, "low"⟩ (by decide)

/-- C2: for one numeric column, the imputation `.bfill().ffill()` turns
every missing entry into the nearest following non-missing value
(`(xs.drop i).findSome? id` scans forward in sequence order) and, only
when no following non-missing value exists, into the nearest preceding
non-missing value (`((xs.take i).reverse).findSome? id` scans backward);
the two spec examples [missing, missing, 80] and [80, missing, missing]
both resolve to [80, 80, 80]. -/
theorem impute_backward_then_forward_fill :
    (∀ (xs : List (Option ℚ)) (i : ℕ), i < xs.length → xs[i]? = some none →
        (impute xs)[i]? = some (Option.orElse ((xs.drop i).findSome? id)
          (fun _ => ((xs.take i).reverse).findSome? id))) ∧
    impute [none, none, some 80] = [some 80, some 80, some 80] ∧
    impute [some 80, none, none] = [some 80, some 80, some 80] := by
  refine ⟨?_, by decide, by decide⟩
  intro xs i h hm
  have hx : xs[i] = none := by
    rw [List.getElem?_eq_getElem h] at hm
    injection hm
  exact getElem?_impute_of_none xs i h hx

/-- Witness for C2 at the concrete column [missing, 3]. -/
theorem impute_backward_then_forward_fill_witness :
    (impute [none, some 3])[0]?
      = some (Option.orElse (([none, some 3].drop 0).findSome? id)
          (fun _ => (([none, some 3].take 0).reverse).findSome? id)) :=
  impute_backward_then_forward_fill.1 [none, some 3] 0 (by decide) (by decide)

/-- C3: on the failing input whose average_speed column has no
non-missing value at all, the Engine raises no error of any kind — it
returns successfully, emitting the row with average_speed still missing
and classified low, instead of the DataIntegrityError the spec
mandates. -/
theorem all_missing_column_emits_rows :
    transform_traffic_data [⟨some 0, 1, some 100, none⟩]
      = Except.ok [⟨0, 1, some 100, none, 0, "Sunday", true, "low"⟩] := by
  decide

/-- C4: the cap replaces a value strictly above 120 by exactly 120 and
keeps a value at or below 120 unchanged; every non-missing speed the
Engine emits is at most 120; and a batch with zero missing values rides
through the Engine with every vehicle_count unchanged and every
average_speed changed only by the 120-cap. -/
theorem speed_cap_and_round_trip :
    (∀ v : ℚ,
      (120 < v → capSpeed (some v) = some 120) ∧ (v ≤ 120 → capSpeed (some v) = some v)) ∧
    (∀ (df : List RawRow) (out : List TransformedRow),
        transform_traffic_data df = Except.ok out →
        ∀ r ∈ out, ∀ v : ℚ, r.average_speed = some v → v ≤ 120) ∧
    (∀ df : List RawRow,
        (∀ r ∈ df, r.timestamp ≠ none) →
        (∀ r ∈ df, r.vehicle_count ≠ none ∧ r.average_speed ≠ none) →
        ∃ out, transform_traffic_data df = Except.ok out ∧
          out.length = df.length ∧
          ∀ i, i < df.length →
            (out[i]?).map (fun r => r.vehicle_count)
              = (df[i]?).map (fun r => r.vehicle_count) ∧
            (out[i]?).map (fun r => r.average_speed)
              = (df[i]?).map (fun r => (r.average_speed).map (fun v => min v 120))) := by
  refine ⟨?_, ?_, ?_⟩
  · intro v
    constructor
    · intro hv
      have : min v 120 = 120 := min_eq_right (le_of_lt hv)
      simp [capSpeed, this]
    · intro hv
      have : min v 120 = v := min_eq_left hv
      simp [capSpeed, this]
  · intro df out h r hr v hv
    obtain ⟨tss, hp, rfl⟩ := transform_ok_elim df out h
    obtain ⟨i, hi, rfl⟩ := List.mem_map.mp hr
    rw [transformRow_average_speed, List.getElem?_map] at hv
    cases hy : (impute (df.map (fun r => r.average_speed)))[i]? with
    | none => rw [hy] at hv; cases hv
    | some y =>
      rw [hy] at hv
      exact capSpeed_le y v (by simpa using hv)
  · intro df hts hvals
    have hcol : ∀ x ∈ df.map (fun r => r.timestamp), x ≠ none := by
      intro x hx
      obtain ⟨r, hr, rfl⟩ := List.mem_map.mp hx
      exact hts r hr
    obtain ⟨tss, hp⟩ := parse_timestamps_of_all_some _ hcol
    refine ⟨(List.range df.length).map (transformRow df tss),
      transform_ok_intro df tss hp, by simp, ?_⟩
    intro i hi
    have hvc : impute (df.map (fun r => r.vehicle_count))
        = df.map (fun r => r.vehicle_count) := by
      apply impute_eq_self
      intro x hx
      obtain ⟨r, hr, rfl⟩ := List.mem_map.mp hx
      exact (hvals r hr).1
    have hsp : impute (df.map (fun r => r.average_speed))
        = df.map (fun r => r.average_speed) := by
      apply impute_eq_self
      intro x hx
      obtain ⟨r, hr, rfl⟩ := List.mem_map.mp hx
      exact (hvals r hr).2
    rw [getElem?_range_map _ _ i hi, List.getElem?_eq_getElem hi]
    have h1 : (transformRow df tss i).vehicle_count = df[i].vehicle_count := by
      rw [transformRow_vehicle_count, hvc, List.getElem?_map, List.getElem?_eq_getElem hi]
      rfl
    have h2 : (transformRow df tss i).average_speed
        = (df[i].average_speed).map (fun v => min v 120) := by
      rw [transformRow_average_speed, hsp, List.getElem?_map, List.getElem?_map,
        List.getElem?_eq_getElem hi]
      exact capSpeed_eq_map_min df[i].average_speed
    refine ⟨?_, ?_⟩
    · simp [h1]
    · simp [h2]

/-- Witness for C4 at a concrete one-row batch with speed 150. -/
theorem speed_cap_and_round_trip_witness :
    ∃ out, transform_traffic_data [⟨some 0, 1, some 100, some 150⟩] = Except.ok out ∧
      out.length = ([⟨some 0, 1, some 100, some 150⟩] : List RawRow).length ∧
      ∀ i, i < ([⟨some 0, 1, some 100, some 150⟩] : List RawRow).length →
        (out[i]?).map (fun r => r.vehicle_count)
          = (([⟨some 0, 1, some 100, some 150⟩] : List RawRow)[i]?).map
              (fun r => r.vehicle_count) ∧
        (out[i]?).map (fun r => r.average_speed)
          = (([⟨some 0, 1, some 100, some 150⟩] : List RawRow)[i]?).map
              (fun r => (r.average_speed).map (fun v => min v 120)) :=
  speed_cap_and_round_trip.2.2 [⟨some 0, 1, some 100, some 150⟩] (by decide) (by decide)

/-- C7: whenever the Engine succeeds, the output has exactly the input's
length, and row i of the output corresponds to row i of the input: it
carries that row's location id, and its timestamp is the parse of that
row's raw timestamp, so no row is dropped, added or reordered. -/
theorem transform_preserves_cardinality_order :
    ∀ (df : List RawRow) (out : List TransformedRow),
      transform_traffic_data df = Except.ok out →
      out.length = df.length ∧
      ∀ i, i < df.length →
        (out[i]?).map (fun r => r.location_id) = (df[i]?).map (fun r => r.location_id) ∧
        (df[i]?).map (fun r => r.timestamp) = (out[i]?).map (fun r => some r.timestamp) := by
  intro df out h
  obtain ⟨tss, hp, rfl⟩ := transform_ok_elim df out h
  refine ⟨by simp, ?_⟩
  intro i hi
  rw [getElem?_range_map _ _ i hi, List.getElem?_eq_getElem hi]
  constructor
  · have hloc : (transformRow df tss i).location_id = df[i].location_id := by
      rw [transformRow_location_id, List.getElem?_eq_getElem hi]
      rfl
    simp [hloc]
  · have hmap : (df.map (fun r => r.timestamp))[i]? = some (some (tss.getD i 0)) :=
      parse_timestamps_getElem _ tss hp i (by simpa using hi)
    rw [List.getElem?_map, List.getElem?_eq_getElem hi] at hmap
    have hts : df[i].timestamp = some (tss.getD i 0) := by injection hmap
    have htr : (transformRow df tss i).timestamp = tss.getD i 0 := rfl
    simp [hts, htr]

/-- Witness for C7 at a concrete one-row batch. -/
theorem transform_preserves_cardinality_order_witness :
    (([⟨0, 1, some 100, some 50, 0, "Sunday", true, "low"⟩] : List TransformedRow).length
      = ([⟨some 0, 1, some 100, some 50⟩] : List RawRow).length) ∧
    ∀ i, i < ([⟨some 0, 1, some 100, some 50⟩] : List RawRow).length →
      (([⟨0, 1, some 100, some 50, 0, "Sunday", true, "low"⟩] :
          List TransformedRow)[i]?).map (fun r => r.location_id)
        = (([⟨some 0, 1, some 100, some 50⟩] : List RawRow)[i]?).map
            (fun r => r.location_id) ∧
      (([⟨some 0, 1, some 100, some 50⟩] : List RawRow)[i]?).map (fun r => r.timestamp)
        = (([⟨0, 1, some 100, some 50, 0, "Sunday", true, "low"⟩] :
            List TransformedRow)[i]?).map (fun r => some r.timestamp) :=
  transform_preserves_cardinality_order [⟨some 0, 1, some 100, some 50⟩]
    [⟨0, 1, some 100, some 50, 0, "Sunday", true, "low"⟩] (by decide)

/-- C5 counterexample: with every random draw landing on North, the
first row of the locations table carries the area string "Area North",
which is none of the four bare cardinal labels the claim allows, because
the source wraps the drawn label in the f-string prefix "Area ". -/
theorem locations_area_label_counterexample :
    ((load_locations (fun _ => Cardinal.north)).getD 0 ⟨0, "", ""⟩).area = "Area North" ∧
    "Area North" ≠ "North" ∧ "Area North" ≠ "South" ∧
    "Area North" ≠ "East" ∧ "Area North" ≠ "West" := by
  decide

/-- C5 amended: for every draw of cardinal labels, the locations table
has exactly 10 rows, row i carrying location_id i+1, street_name
"Street i+1", and an area string equal to "Area " followed by one of the
four cardinal labels North, South, East, West. -/
theorem locations_table_amended :
    ∀ choice : ℕ → Cardinal,
      (load_locations choice).length = 10 ∧
      ∀ i : ℕ, i < 10 →
        ((load_locations choice)[i]?).map (fun r => r.location_id) = some ((i : ℤ) + 1) ∧
        ((load_locations choice)[i]?).map (fun r => r.street_name)
          = some ("Street " ++ toString (i + 1)) ∧
        ∃ c : Cardinal, ((load_locations choice)[i]?).map (fun r => r.area)
          = some ("Area " ++ cardinalName c) := by
  intro choice
  refine ⟨by simp [load_locations], ?_⟩
  intro i hi
  unfold load_locations
  rw [getElem?_range_map _ 10 i hi]
  exact ⟨rfl, rfl, choice i, rfl⟩

/-- Witness for C5 at the constant-North draw and row index 0. -/
theorem locations_table_amended_witness :
    ((load_locations (fun _ => Cardinal.north))[0]?).map (fun r => r.location_id)
      = some ((0 : ℤ) + 1) :=
  (((locations_table_amended (fun _ => Cardinal.north)).2 0 (by norm_num)).1)

/-- C6 counterexample: a parsable one-row batch whose location_id is
999, far outside the domain 1..10, on which the Engine succeeds and
emits the row with that id unchanged instead of failing. -/
theorem no_location_id_validation_counterexample :
    transform_traffic_data [⟨some 0, 999, some 100, some 50⟩]
      = Except.ok [⟨0, 999, some 100, some 50, 0, "Sunday", true, "low"⟩] := by
  decide

/-- C6 amended: the Engine aborts with the validation error before
emitting any row whenever some raw timestamp cannot be parsed, but it
performs no location_id validation at all: whenever it succeeds, every
row's location id is passed through unchanged, inside or outside the
domain 1..10. -/
theorem engine_validation_amended :
    (∀ df : List RawRow, (∃ r ∈ df, r.timestamp = none) →
        transform_traffic_data df = Except.error EngineError.validationError) ∧
    (∀ (df : List RawRow) (out : List TransformedRow),
        transform_traffic_data df = Except.ok out →
        ∀ i, i < df.length →
          (out[i]?).map (fun r => r.location_id)
            = (df[i]?).map (fun r => r.location_id)) := by
  constructor
  · intro df hex
    obtain ⟨r, hr, hts⟩ := hex
    apply transform_error_intro
    apply parse_timestamps_of_mem_none
    rw [← hts]
    exact List.mem_map_of_mem (fun r => r.timestamp) hr
  · intro df out h i hi
    obtain ⟨tss, hp, rfl⟩ := transform_ok_elim df out h
    rw [getElem?_range_map _ _ i hi, List.getElem?_eq_getElem hi]
    have hloc : (transformRow df tss i).location_id = df[i].location_id := by
      rw [transformRow_location_id, List.getElem?_eq_getElem hi]
      rfl
    simp [hloc]

/-- Witness for C6 at a concrete batch with an unparsable timestamp. -/
theorem engine_validation_amended_witness :
    transform_traffic_data [⟨none, 1, some 1, some 1⟩]
      = Except.error EngineError.validationError :=
  engine_validation_amended.1 [⟨none, 1, some 1, some 1⟩]
    ⟨⟨none, 1, some 1, some 1⟩, by decide, rfl⟩

/-- C8: for every desired row count and every state of the random
source, the generator emits exactly that many observations, the
timestamp of row i being the start instant plus 15 i minutes, which
makes consecutive timestamps strictly increasing and exactly 15 minutes
apart. -/
theorem generator_timestamps_spec :
    ∀ (n : ℕ) (r : RandomDraws),
      (generate_synthetic_traffic_data n r).length = n ∧
      (∀ i, i < n →
        ((generate_synthetic_traffic_data n r)[i]?).map (fun row => row.timestamp)
          = some (some (start_date + 15 * i))) ∧
      (∀ i j, i < j → start_date + 15 * i < start_date + 15 * j) ∧
      (∀ i, (start_date + 15 * (i + 1)) - (start_date + 15 * i) = 15) := by
  intro n r
  refine ⟨by simp [generate_synthetic_traffic_data], ?_, ?_, ?_⟩
  · intro i hi
    unfold generate_synthetic_traffic_data
    rw [getElem?_range_map _ n i hi]
    rfl
  · intro i j hij
    simp [start_date]
    omega
  · intro i
    simp [start_date]
    omega

/-- Witness for C8 at row count 2 and an arbitrary concrete draw
state. -/
theorem generator_timestamps_spec_witness :
    ((generate_synthetic_traffic_data 2
        ⟨fun _ => 1, fun _ => 50, fun _ => 3 / 2, fun _ => 40, fun _ => 10,
          fun _ => false, fun _ => false⟩)[1]?).map (fun row => row.timestamp)
      = some (some (start_date + 15 * 1)) :=
  (generator_timestamps_spec 2
      ⟨fun _ => 1, fun _ => 50, fun _ => 3 / 2, fun _ => 40, fun _ => 10,
        fun _ => false, fun _ => false⟩).2.1 1 (by norm_num)

/-- C9 counterexample: for the one-row batch whose speed is 150, the raw
batch the caller handed to the Engine does not keep its field values:
after the call it no longer equals its old contents, the speed having
been capped to 120 in place. -/
theorem engine_mutates_input_counterexample :
    raw_batch_after [⟨some 0, 1, some 100, some 150⟩]
      ≠ Except.ok [⟨some 0, 1, some 100, some 150⟩] := by
  decide

/-- C9 amended: the Engine mutates the raw batch in place rather than
leaving it untouched: the source assigns every transformed column onto
the input dataframe itself and returns that object, so after a
successful run the caller's raw batch holds, row for row, the
transformed values — the parsed timestamp, the imputed vehicle count and
the imputed, capped average speed — instead of its original contents. -/
theorem engine_in_place_mutation_amended :
    ∀ (df : List RawRow) (out : List TransformedRow),
      transform_traffic_data df = Except.ok out →
      ∃ afterBatch, raw_batch_after df = Except.ok afterBatch ∧
        afterBatch.length = df.length ∧
        ∀ i, i < df.length →
          (afterBatch[i]?).map (fun r => r.timestamp)
            = (out[i]?).map (fun r => some r.timestamp) ∧
          (afterBatch[i]?).map (fun r => r.vehicle_count)
            = (out[i]?).map (fun r => r.vehicle_count) ∧
          (afterBatch[i]?).map (fun r => r.average_speed)
            = (out[i]?).map (fun r => r.average_speed) := by
  intro df out h
  have hlen : out.length = df.length := by
    obtain ⟨tss, hp, rfl⟩ := transform_ok_elim df out h
    simp
  refine ⟨out.map (fun r =>
    { timestamp := some r.timestamp
      location_id := r.location_id
      vehicle_count := r.vehicle_count
      average_speed := r.average_speed }), ?_, by simp [hlen], ?_⟩
  · unfold raw_batch_after
    rw [h]
    rfl
  · intro i hi
    have hio : i < out.length := by omega
    rw [List.getElem?_map, List.getElem?_eq_getElem hio]
    simp

/-- Witness for C9 at a concrete one-row batch. -/
theorem engine_in_place_mutation_amended_witness :
    ∃ afterBatch,
      raw_batch_after [⟨some 0, 1, some 100, some 150⟩] = Except.ok afterBatch ∧
      afterBatch.length = ([⟨some 0, 1, some 100, some 150⟩] : List RawRow).length ∧
      ∀ i, i < ([⟨some 0, 1, some 100, some 150⟩] : List RawRow).length →
        (afterBatch[i]?).map (fun r => r.timestamp)
          = (([⟨0, 1, some 100, some 120, 0, "Sunday", true, "low"⟩] :
              List TransformedRow)[i]?).map (fun r => some r.timestamp) ∧
        (afterBatch[i]?).map (fun r => r.vehicle_count)
          = (([⟨0, 1, some 100, some 120, 0, "Sunday", true, "low"⟩] :
              List TransformedRow)[i]?).map (fun r => r.vehicle_count) ∧
        (afterBatch[i]?).map (fun r => r.average_speed)
          = (([⟨0, 1, some 100, some 120, 0, "Sunday", true, "low"⟩] :
              List TransformedRow)[i]?).map (fun r => r.average_speed) :=
  engine_in_place_mutation_amended [⟨some 0, 1, some 100, some 150⟩]
    [⟨0, 1, some 100, some 120, 0, "Sunday", true, "low"⟩] (by decide)

/-- C10: under the numpy draw ranges used by the source — base vehicle
count drawn from the integers of [50, 200) and peak-hour factor drawn
from [1.5, 2.5) — every vehicle_count the generator emits that was not
replaced by missing-value injection is at least 50, strictly stronger
than the spec's stated bound of at least 0. -/
theorem vehicle_count_at_least_fifty :
    ∀ (n : ℕ) (r : RandomDraws),
      (∀ j, 50 ≤ r.baseCount j ∧ r.baseCount j < 200) →
      (∀ j, (3 : ℚ) / 2 ≤ r.peakFactor j ∧ r.peakFactor j < 5 / 2) →
      ∀ row ∈ generate_synthetic_traffic_data n r,
        ∀ q : ℚ, row.vehicle_count = some q → 50 ≤ q := by
  intro n r hbase hfac row hrow q hq
  obtain ⟨i, hi, rfl⟩ := List.mem_map.mp hrow
  by_cases hm : r.missVC i
  · simp [hm] at hq
  · simp [hm] at hq
    rw [← hq]
    have h50 : 50 ≤ gen_vehicle_count r i :=
      gen_vehicle_count_ge r i (hbase i).1 (hfac i).1
    exact_mod_cast h50

/-- Witness for C10 at a concrete non-peak row with base count 50. -/
theorem vehicle_count_at_least_fifty_witness : (50 : ℚ) ≤ 50 :=
  vehicle_count_at_least_fifty 1
    ⟨fun _ => 1, fun _ => 50, fun _ => 3 / 2, fun _ => 40, fun _ => 10,
      fun _ => false, fun _ => false⟩
    (fun _ => ⟨by norm_num, by norm_num⟩) (fun _ => ⟨by norm_num, by norm_num⟩)
    ⟨some 0, 1, some 50, some 40⟩ (by decide) 50 rfl

end Traffic
